import Mathlib

/-!
Shallow embedding of the experiment / metrics engine of the `mutual-of-omaha`
repository (medical extraction pipeline).

The embedded code lives in
  * `backend/app/services/experiment_service.py` (experiment lifecycle,
    request-counter attribution), and
  * `backend/app/services/metrics_service.py` (cost model, telemetry
    aggregation, percentiles, two-arm comparison), together with
  * `backend/lambda/handlers/metrics.py` (the comparison HTTP handler).

Conventions of the embedding:
  * Python `float` arithmetic is modelled with exact rationals `ℚ`;
    Python's `round(x, n)` (banker's rounding, half to even) is modelled by
    `pyRound`.
  * `datetime` values are modelled as integers under the usual order
    (ISO-8601 parsing is a monotone bijection into a totally ordered set).
  * The DynamoDB experiments table is modelled as a function
    `String → Option Experiment`; `update_item` on an existing key is an
    in-place field update.  (`update_item` on a missing key would create a
    partial skeleton item; no property below touches that path, and the
    embedding leaves the store unchanged there.)
  * Fallible operations return `Option`/a response sum type; the service
    functions that return a Python `bool` return `Bool × Store`.
-/

/-! ## Experiment service (`experiment_service.py`) -/

/-- `ExperimentStatus` enum: experiment lifecycle states. -/
inductive ExperimentStatus where
  | draft
  | running
  | completed
  | promoted
  | rolled_back
deriving DecidableEq, Repr

/-- `TrafficAllocation` enum: traffic split strategies. -/
inductive TrafficAllocation where
  | equal_split
  | control_heavy
  | treatment_heavy
  | canary
deriving DecidableEq, Repr

/-- The `Experiment` dataclass. -/
structure Experiment where
  experiment_id : String
  name : String
  description : String
  control_version : String
  treatment_version : String
  traffic_allocation : TrafficAllocation
  target_sample_size : ℕ
  max_duration_days : ℕ
  min_success_rate_delta : ℚ
  max_cost_increase_pct : ℚ
  status : ExperimentStatus
  created_at : ℤ
  started_at : Option ℤ
  ended_at : Option ℤ
  created_by : String
  control_requests : ℕ := 0
  treatment_requests : ℕ := 0
  winner : Option String := none
  conclusion : Option String := none
deriving DecidableEq, Repr

/-- The DynamoDB experiments table, keyed by `experiment_id`. -/
def ExperimentStore : Type := String → Option Experiment

/-- `table.update_item(Key={"experiment_id": id}, ...)` applied to a stored
experiment: rewrites the fields of the item at `id` when it exists. -/
def store_update (store : ExperimentStore) (experiment_id : String)
    (f : Experiment → Experiment) : ExperimentStore :=
  fun k => if k = experiment_id then (store k).map f else store k

/-- `ExperimentService.start_experiment`: fetches the experiment, refuses when
missing or when `status != DRAFT` (returning `False` with no write), otherwise
sets `status = running` and `started_at = now` and returns `True`. -/
def start_experiment (store : ExperimentStore) (now : ℤ)
    (experiment_id : String) : Bool × ExperimentStore :=
  match store experiment_id with
  | none => (false, store)
  | some experiment =>
    if experiment.status ≠ ExperimentStatus.draft then
      (false, store)
    else
      (true, store_update store experiment_id fun e =>
        { e with status := ExperimentStatus.running, started_at := some now })

/-- `ExperimentService.complete_experiment`: unconditionally issues the update
`SET status = completed, ended_at = now, winner = winner,
conclusion = conclusion` and returns `True`.  There is no status check and no
validation of `winner`. -/
def complete_experiment (store : ExperimentStore) (now : ℤ)
    (experiment_id winner conclusion : String) : Bool × ExperimentStore :=
  (true, store_update store experiment_id fun e =>
    { e with status := ExperimentStatus.completed, ended_at := some now,
             winner := some winner, conclusion := some conclusion })

/-- `ExperimentService.promote_treatment`: unconditionally issues
`SET status = promoted` and returns `True`.  No status check. -/
def promote_treatment (store : ExperimentStore)
    (experiment_id : String) : Bool × ExperimentStore :=
  (true, store_update store experiment_id fun e =>
    { e with status := ExperimentStatus.promoted })

/-- `ExperimentService.record_request`: fetches the experiment (no-op when
missing); increments `control_requests` when `version == control_version`,
otherwise increments `treatment_requests`. -/
def record_request (store : ExperimentStore)
    (experiment_id version : String) : ExperimentStore :=
  match store experiment_id with
  | none => store
  | some experiment =>
    if version = experiment.control_version then
      store_update store experiment_id fun e =>
        { e with control_requests := e.control_requests + 1 }
    else
      store_update store experiment_id fun e =>
        { e with treatment_requests := e.treatment_requests + 1 }

/-! ## Metrics service (`metrics_service.py`) -/

/-- Python `round` rounds half to even (banker's rounding); this is its value
on exact rationals. -/
def roundHalfEven (q : ℚ) : ℤ :=
  if q - Int.floor q < 1 / 2 then Int.floor q
  else if 1 / 2 < q - Int.floor q then Int.floor q + 1
  else if Int.floor q % 2 = 0 then Int.floor q else Int.floor q + 1

/-- Python `round(x, ndigits)`. -/
def pyRound (q : ℚ) (ndigits : ℕ) : ℚ :=
  (roundHalfEven (q * 10 ^ ndigits) : ℚ) / 10 ^ ndigits

/-- `MetricsService.INPUT_TOKEN_PRICE = 0.00025 / 1000`. -/
def INPUT_TOKEN_PRICE : ℚ := (0.00025 : ℚ) / 1000

/-- `MetricsService.OUTPUT_TOKEN_PRICE = 0.00125 / 1000`. -/
def OUTPUT_TOKEN_PRICE : ℚ := (0.00125 : ℚ) / 1000

/-- `MetricsService.calculate_cost`: per-request Bedrock cost in USD,
rounded to 6 decimal places. -/
def calculate_cost (input_tokens output_tokens : ℤ) : ℚ :=
  pyRound ((input_tokens : ℚ) * INPUT_TOKEN_PRICE
    + (output_tokens : ℚ) * OUTPUT_TOKEN_PRICE) 6

/-- The extracted `medical_data` dictionary.  Python truthiness: a string
field counts as populated iff non-empty, a collection iff non-empty (absent
keys are modelled as `""` / `[]`). -/
structure MedicalData where
  patient_name : String := ""
  date_of_birth : String := ""
  diagnoses : List String := []
  medications : List String := []
  lab_values : List String := []
  procedures : List String := []
  allergies : List String := []
  vital_signs : List String := []
  notes : String := ""
deriving DecidableEq, Repr

/-- `MetricsService.calculate_field_completeness`; `none` models a falsy
(empty/absent) `medical_data` argument. -/
def calculate_field_completeness (medical_data : Option MedicalData) : ℚ × ℕ :=
  match medical_data with
  | none => (0, 0)
  | some m =>
    let total_fields : ℕ := 9
    let populated_fields : ℕ :=
      (if m.patient_name ≠ "" then 1 else 0)
      + (if m.date_of_birth ≠ "" then 1 else 0)
      + (if m.diagnoses ≠ [] then 1 else 0)
      + (if m.medications ≠ [] then 1 else 0)
      + (if m.lab_values ≠ [] then 1 else 0)
      + (if m.procedures ≠ [] then 1 else 0)
      + (if m.allergies ≠ [] then 1 else 0)
      + (if m.vital_signs ≠ [] then 1 else 0)
      + (if m.notes ≠ "" then 1 else 0)
    (pyRound ((populated_fields : ℚ) / total_fields * 100) 2, populated_fields)

/-- The `token_usage` sub-dictionary of a telemetry item
(`.get(..., 0)` defaults folded into the fields). -/
structure TokenUsage where
  input_tokens : ℤ
  output_tokens : ℤ
deriving DecidableEq, Repr

/-- One DynamoDB result item (telemetry record) as the aggregator reads it:
every field except `prompt_version` and `status` is accessed with `.get` /
`in`, hence optional.  `extracted_at` timestamps are modelled as integers.
The outer `Option` on `medical_data` is key presence, the inner one Python
truthiness of the stored dictionary. -/
structure Item where
  prompt_version : String
  status : String
  extracted_at : Option ℤ := none
  processing_time_ms : Option ℤ := none
  token_usage : Option TokenUsage := none
  medical_data : Option (Option MedicalData) := none
deriving DecidableEq, Repr

/-- The `PromptMetrics` dataclass.  The three percentile fields hold values
taken verbatim from the sorted integer latency list. -/
structure PromptMetrics where
  prompt_version : String
  total_requests : ℕ
  successful_requests : ℕ
  failed_requests : ℕ
  success_rate : ℚ
  avg_processing_time_ms : ℚ
  p50_processing_time_ms : ℤ
  p95_processing_time_ms : ℤ
  p99_processing_time_ms : ℤ
  total_input_tokens : ℤ
  total_output_tokens : ℤ
  total_cost_usd : ℚ
  avg_cost_per_request : ℚ
  avg_field_completeness : ℚ
  avg_fields_extracted : ℚ
  first_request : ℤ
  last_request : ℤ
deriving DecidableEq, Repr

/-- The DynamoDB scan filter `prompt_version = :version`
(local `items` of `get_prompt_metrics`). -/
def itemsFor (records : List Item) (prompt_version : String) : List Item :=
  records.filter fun item => item.prompt_version == prompt_version

/-- The date-range filter (local `filtered_items` of `get_prompt_metrics`):
keeps items with a present `extracted_at` in `[start_date, end_date]`. -/
def filteredItems (records : List Item) (prompt_version : String)
    (start_date end_date : ℤ) : List Item :=
  (itemsFor records prompt_version).filter fun item =>
    match item.extracted_at with
    | some t => decide (start_date ≤ t) && decide (t ≤ end_date)
    | none => false

/-- Local `successful` of `get_prompt_metrics`. -/
def successfulItems (records : List Item) (prompt_version : String)
    (start_date end_date : ℤ) : List Item :=
  (filteredItems records prompt_version start_date end_date).filter
    fun item => item.status == "completed"

/-- Local `failed` of `get_prompt_metrics`. -/
def failedItems (records : List Item) (prompt_version : String)
    (start_date end_date : ℤ) : List Item :=
  (filteredItems records prompt_version start_date end_date).filter
    fun item => item.status == "failed"

/-- Local `processing_times`: latencies of successful items that carry the
`processing_time_ms` key. -/
def processingTimes (records : List Item) (prompt_version : String)
    (start_date end_date : ℤ) : List ℤ :=
  (successfulItems records prompt_version start_date end_date).filterMap
    fun item => item.processing_time_ms

/-- Local `input_tokens` list of `get_prompt_metrics`. -/
def inputTokensList (records : List Item) (prompt_version : String)
    (start_date end_date : ℤ) : List ℤ :=
  (successfulItems records prompt_version start_date end_date).filterMap
    fun item => item.token_usage.map TokenUsage.input_tokens

/-- Local `output_tokens` list of `get_prompt_metrics`. -/
def outputTokensList (records : List Item) (prompt_version : String)
    (start_date end_date : ℤ) : List ℤ :=
  (successfulItems records prompt_version start_date end_date).filterMap
    fun item => item.token_usage.map TokenUsage.output_tokens

/-- Local `processing_times_sorted`:
`sorted(processing_times) if processing_times else [0]` — never empty. -/
def processingTimesSorted (records : List Item) (prompt_version : String)
    (start_date end_date : ℤ) : List ℤ :=
  if (processingTimes records prompt_version start_date end_date).isEmpty then [0]
  else List.insertionSort (· ≤ ·)
    (processingTimes records prompt_version start_date end_date)

/-- `statistics.mean` over an integer list. -/
def listMeanZ (l : List ℤ) : ℚ := (l.sum : ℚ) / l.length

/-- `statistics.mean` over a rational list. -/
def listMeanQ (l : List ℚ) : ℚ := l.sum / l.length

/-- The aggregation body of `get_prompt_metrics` (run once both emptiness
guards have passed); each `let` mirrors a local of the Python function. -/
def build_prompt_metrics (records : List Item) (prompt_version : String)
    (start_date end_date : ℤ) : PromptMetrics :=
  let filtered := filteredItems records prompt_version start_date end_date
  let successful := successfulItems records prompt_version start_date end_date
  let failed := failedItems records prompt_version start_date end_date
  let processing_times := processingTimes records prompt_version start_date end_date
  let input_tokens := inputTokensList records prompt_version start_date end_date
  let output_tokens := outputTokensList records prompt_version start_date end_date
  let completeness := (successful.filterMap Item.medical_data).map
    calculate_field_completeness
  let completeness_scores := completeness.map Prod.fst
  let fields_extracted := completeness.map Prod.snd
  let processing_times_sorted :=
    processingTimesSorted records prompt_version start_date end_date
  -- `int(len(processing_times_sorted) * p)` for p = 0.50, 0.95, 0.99
  let p50_idx := processing_times_sorted.length * 50 / 100
  let p95_idx := processing_times_sorted.length * 95 / 100
  let p99_idx := processing_times_sorted.length * 99 / 100
  let total_input := input_tokens.sum
  let total_output := output_tokens.sum
  let total_cost := calculate_cost total_input total_output
  let dates := filtered.filterMap Item.extracted_at
  { prompt_version := prompt_version
    total_requests := filtered.length
    successful_requests := successful.length
    failed_requests := failed.length
    success_rate := pyRound ((successful.length : ℚ) / filtered.length * 100) 2
    avg_processing_time_ms :=
      if processing_times.isEmpty then 0 else pyRound (listMeanZ processing_times) 2
    -- `processing_times_sorted` is never empty, so the Python
    -- `... if processing_times_sorted else 0` guard is the index branch
    p50_processing_time_ms := processing_times_sorted.getD p50_idx 0
    p95_processing_time_ms := processing_times_sorted.getD p95_idx 0
    p99_processing_time_ms := processing_times_sorted.getD p99_idx 0
    total_input_tokens := total_input
    total_output_tokens := total_output
    total_cost_usd := pyRound total_cost 4
    avg_cost_per_request :=
      if successful.isEmpty then 0
      else pyRound (total_cost / successful.length) 6
    avg_field_completeness :=
      if completeness_scores.isEmpty then 0
      else pyRound (listMeanQ completeness_scores) 2
    avg_fields_extracted :=
      if fields_extracted.isEmpty then 0
      else pyRound (listMeanQ (fields_extracted.map fun n => (n : ℚ))) 2
    -- `min(dates)` / `max(dates)`: `dates` is non-empty here (every filtered
    -- item passed the `extracted_at` check), so the `utcnow()` fallback is dead
    first_request := dates.min?.getD 0
    last_request := dates.max?.getD 0 }

/-- `MetricsService.get_prompt_metrics` over the record store: `none` models
the `None` ("no data") return; the two guards are the `if not items` and
`if not filtered_items` early exits. -/
def get_prompt_metrics (records : List Item) (prompt_version : String)
    (start_date end_date : ℤ) : Option PromptMetrics :=
  if (itemsFor records prompt_version).isEmpty then none
  else if (filteredItems records prompt_version start_date end_date).isEmpty then none
  else some (build_prompt_metrics records prompt_version start_date end_date)

/-- The four recommendation messages `compare_prompts` can produce, as tagged
values carrying the data the source interpolates into the f-strings. -/
inductive Recommendation where
  | promote (treatment_version : String) (success_rate_delta : ℚ)
  | review (treatment_version : String) (cost_delta_pct : ℚ)
  | keep_control (control_version : String)
  | insufficient_data
deriving DecidableEq, Repr

/-- The `ExperimentResult` dataclass. -/
structure ExperimentResult where
  control_version : String
  treatment_version : String
  control_n : ℕ
  treatment_n : ℕ
  control_success_rate : ℚ
  treatment_success_rate : ℚ
  success_rate_delta : ℚ
  success_rate_p_value : ℚ
  control_avg_time : ℚ
  treatment_avg_time : ℚ
  time_delta_ms : ℚ
  time_p_value : ℚ
  control_avg_cost : ℚ
  treatment_avg_cost : ℚ
  cost_delta_usd : ℚ
  cost_delta_pct : ℚ
  is_significant : Bool
  confidence_level : ℚ
  recommendation : Recommendation
deriving DecidableEq, Repr

/-- The comparison body of `MetricsService.compare_prompts` — everything after
the two `get_prompt_metrics` fetches succeed; each `let` mirrors a Python
local. -/
def compare_metrics (control_version treatment_version : String)
    (confidence_level : ℚ) (cm tm : PromptMetrics) : ExperimentResult :=
  let success_rate_delta := tm.success_rate - cm.success_rate
  let time_delta := tm.avg_processing_time_ms - cm.avg_processing_time_ms
  let cost_delta := tm.avg_cost_per_request - cm.avg_cost_per_request
  let cost_delta_pct :=
    if cm.avg_cost_per_request > 0 then
      cost_delta / cm.avg_cost_per_request * 100
    else 0
  let min_sample_size : ℕ := 30
  let is_significant :=
    decide (cm.total_requests ≥ min_sample_size
      ∧ tm.total_requests ≥ min_sample_size
      ∧ |success_rate_delta| > 5.0)
  let recommendation :=
    if is_significant then
      if success_rate_delta > 0 ∧ cost_delta_pct < 20 then
        Recommendation.promote treatment_version success_rate_delta
      else if success_rate_delta > 0 ∧ cost_delta_pct ≥ 20 then
        Recommendation.review treatment_version cost_delta_pct
      else
        Recommendation.keep_control control_version
    else
      Recommendation.insufficient_data
  { control_version := control_version
    treatment_version := treatment_version
    control_n := cm.total_requests
    treatment_n := tm.total_requests
    control_success_rate := cm.success_rate
    treatment_success_rate := tm.success_rate
    success_rate_delta := pyRound success_rate_delta 2
    success_rate_p_value := 0.05
    control_avg_time := cm.avg_processing_time_ms
    treatment_avg_time := tm.avg_processing_time_ms
    time_delta_ms := pyRound time_delta 2
    time_p_value := 0.05
    control_avg_cost := cm.avg_cost_per_request
    treatment_avg_cost := tm.avg_cost_per_request
    cost_delta_usd := pyRound cost_delta 6
    cost_delta_pct := pyRound cost_delta_pct 2
    is_significant := is_significant
    confidence_level := confidence_level
    recommendation := recommendation }

/-- `MetricsService.compare_prompts`: fetches both arms' metrics (over the
default trailing window, whose bounds are the `start_date`/`end_date`
parameters here) and — only when both fetches return data — runs the
comparison.  Note there is no equality check on the two version strings. -/
def compare_prompts (records : List Item)
    (control_version treatment_version : String) (confidence_level : ℚ)
    (start_date end_date : ℤ) : Option ExperimentResult :=
  match get_prompt_metrics records control_version start_date end_date,
        get_prompt_metrics records treatment_version start_date end_date with
  | some cm, some tm =>
    some (compare_metrics control_version treatment_version confidence_level cm tm)
  | _, _ => none

/-! ## Lambda metrics handler (`lambda/handlers/metrics.py`), compare branch -/

/-- An API-gateway response: `ok` is a 200 carrying the comparison result,
`error` is `create_error_response(code, message)`. -/
inductive HandlerResponse where
  | ok (result : ExperimentResult)
  | error (statusCode : ℕ) (message : String)
deriving DecidableEq, Repr

/-- The `POST /api/metrics/compare` branch of the lambda `handler`: missing or
empty version strings → 400; equal versions → 400 *before* the service (and
hence any data lookup) is invoked; otherwise delegates to `compare_prompts`,
mapping its `None` to a 400. -/
def metrics_compare_handler (records : List Item)
    (control_version treatment_version : Option String)
    (confidence_level : ℚ) (start_date end_date : ℤ) : HandlerResponse :=
  -- Python truthiness of `data.get(...)`: `None` and `""` are both falsy
  let cv := control_version.getD ""
  let tv := treatment_version.getD ""
  if cv = "" ∨ tv = "" then
    HandlerResponse.error 400 "Missing control_version or treatment_version"
  else if cv = tv then
    HandlerResponse.error 400 "Control and treatment versions must be different"
  else
    match compare_prompts records cv tv confidence_level start_date end_date with
    | none => HandlerResponse.error 400 "Insufficient data for comparison"
    | some result => HandlerResponse.ok result

/-! ## Concrete fixtures used by witnesses and counterexamples -/

/-- A freshly created experiment (status `draft`), control `"v1"`,
treatment `"v2"`. -/
def expDraft : Experiment :=
  { experiment_id := "e1", name := "exp", description := "test",
    control_version := "v1", treatment_version := "v2",
    traffic_allocation := TrafficAllocation.equal_split,
    target_sample_size := 100, max_duration_days := 30,
    min_success_rate_delta := 5, max_cost_increase_pct := 20,
    status := ExperimentStatus.draft, created_at := 0,
    started_at := none, ended_at := none, created_by := "system" }

/-- The same experiment after a legal start (status `running`). -/
def expRunning : Experiment :=
  { expDraft with status := ExperimentStatus.running, started_at := some 1 }

/-- A store holding only `expDraft` under key `"e1"`. -/
def storeDraft : ExperimentStore :=
  fun k => if k = "e1" then some expDraft else none

/-- A store holding only `expRunning` under key `"e1"`. -/
def storeRunning : ExperimentStore :=
  fun k => if k = "e1" then some expRunning else none

/-! ## Rounding lemmas -/

theorem abs_roundHalfEven_sub_le (x : ℚ) : |(roundHalfEven x : ℚ) - x| ≤ 1 / 2 := by
  have h0 : (⌊x⌋ : ℚ) ≤ x := Int.floor_le x
  have h1 : x < ⌊x⌋ + 1 := Int.lt_floor_add_one x
  unfold roundHalfEven
  split_ifs with hlt hgt heven
  · rw [abs_sub_comm, abs_of_nonneg (by linarith)]
    linarith
  · push_cast
    rw [abs_of_nonneg (by linarith)]
    linarith
  · have heq : x - (⌊x⌋ : ℚ) = 1 / 2 := le_antisymm (not_lt.mp hgt) (not_lt.mp hlt)
    rw [abs_sub_comm, abs_of_nonneg (by linarith)]
    linarith
  · have heq : x - (⌊x⌋ : ℚ) = 1 / 2 := le_antisymm (not_lt.mp hgt) (not_lt.mp hlt)
    push_cast
    rw [abs_of_nonneg (by linarith)]
    linarith

theorem abs_pyRound_sub_le (q : ℚ) (ndigits : ℕ) :
    |pyRound q ndigits - q| ≤ 1 / (2 * 10 ^ ndigits) := by
  have h10 : (0 : ℚ) < 10 ^ ndigits := by positivity
  have h := abs_roundHalfEven_sub_le (q * 10 ^ ndigits)
  have hrw : pyRound q ndigits - q
      = ((roundHalfEven (q * 10 ^ ndigits) : ℚ) - q * 10 ^ ndigits) / 10 ^ ndigits := by
    field_simp [pyRound]
    ring
  rw [hrw, abs_div, abs_of_pos h10, div_le_div_iff₀ h10 (by positivity)]
  calc |(roundHalfEven (q * 10 ^ ndigits) : ℚ) - q * 10 ^ ndigits| * (2 * 10 ^ ndigits)
      ≤ (1 / 2) * (2 * 10 ^ ndigits) := by
        exact mul_le_mul_of_nonneg_right h (by positivity)
    _ = 1 * 10 ^ ndigits := by ring

/-- C9: the cost model is the linear function
`usd = input_tokens * price_in + output_tokens * price_out` up to the 6-decimal
reporting rounding: every value is within `1e-6` of the linear function,
`cost(0, 0) = 0` exactly, and `cost(1000, 500)` equals `0.000875` (hence is
within tolerance `1e-6` of it) at the Claude 3 Haiku prices
`price_in = 0.00025/1000`, `price_out = 0.00125/1000`. -/
theorem calculate_cost_linear_model :
    (∀ input_tokens output_tokens : ℤ,
      |calculate_cost input_tokens output_tokens
        - ((input_tokens : ℚ) * INPUT_TOKEN_PRICE
            + (output_tokens : ℚ) * OUTPUT_TOKEN_PRICE)| ≤ 1 / 1000000) ∧
    calculate_cost 0 0 = 0 ∧
    (calculate_cost 1000 500 = 0.000875 ∧
      |calculate_cost 1000 500 - 0.000875| < 1 / 1000000) := by
  have hz : calculate_cost 0 0 = 0 := by
    norm_num [calculate_cost, pyRound, roundHalfEven, INPUT_TOKEN_PRICE,
      OUTPUT_TOKEN_PRICE]
  have hc : calculate_cost 1000 500 = 0.000875 := by
    norm_num [calculate_cost, pyRound, roundHalfEven, INPUT_TOKEN_PRICE,
      OUTPUT_TOKEN_PRICE]
  refine ⟨fun i o => ?_, hz, hc, ?_⟩
  · calc |calculate_cost i o - ((i : ℚ) * INPUT_TOKEN_PRICE + (o : ℚ) * OUTPUT_TOKEN_PRICE)|
        ≤ 1 / (2 * 10 ^ 6) :=
          abs_pyRound_sub_le ((i : ℚ) * INPUT_TOKEN_PRICE + (o : ℚ) * OUTPUT_TOKEN_PRICE) 6
      _ ≤ 1 / 1000000 := by norm_num
  · rw [hc]
    norm_num

/-! ## Experiment lifecycle theorems -/

/-- C1 counterexample: `complete_experiment` called on an experiment whose
status is `draft` (not `running`) nevertheless reports success and mutates the
experiment — refuting the claim that every lifecycle operation enforces its
status guard and that an illegal call mutates no field. -/
theorem complete_from_draft_succeeds_cex :
    expDraft.status = ExperimentStatus.draft ∧
    (complete_experiment storeDraft 42 "e1" "v1" "done").1 = true ∧
    ((complete_experiment storeDraft 42 "e1" "v1" "done").2 "e1").map Experiment.status
      = some ExperimentStatus.completed ∧
    ((complete_experiment storeDraft 42 "e1" "v1" "done").2 "e1").map Experiment.ended_at
      = some (some 42) := by
  refine ⟨rfl, rfl, by decide, by decide⟩

/-- C1 amended: only `start` enforces a status guard — on an existing
experiment whose status is not `draft` it fails and leaves the store untouched,
and from `draft` it succeeds, setting `status = running` and `started_at`.
`complete` and `promote` perform no status check at all: from any state they
report success and write their fields (`completed`/`ended_at`/`winner`/
`conclusion`, resp. `promoted`). -/
theorem lifecycle_guards_amended :
    ∀ (store : ExperimentStore) (now : ℤ)
      (experiment_id winner conclusion : String) (e : Experiment),
      store experiment_id = some e →
      ((e.status ≠ ExperimentStatus.draft →
          start_experiment store now experiment_id = (false, store)) ∧
       (e.status = ExperimentStatus.draft →
          (start_experiment store now experiment_id).1 = true ∧
          (start_experiment store now experiment_id).2 experiment_id =
            some { e with status := ExperimentStatus.running,
                          started_at := some now }) ∧
       ((complete_experiment store now experiment_id winner conclusion).1 = true ∧
        (complete_experiment store now experiment_id winner conclusion).2 experiment_id =
          some { e with status := ExperimentStatus.completed, ended_at := some now,
                        winner := some winner, conclusion := some conclusion }) ∧
       ((promote_treatment store experiment_id).1 = true ∧
        (promote_treatment store experiment_id).2 experiment_id =
          some { e with status := ExperimentStatus.promoted })) := by
  intro store now experiment_id winner conclusion e h
  refine ⟨fun hs => ?_, fun hs => ⟨?_, ?_⟩, ⟨rfl, ?_⟩, ⟨rfl, ?_⟩⟩
  · simp [start_experiment, h, hs]
  · simp [start_experiment, h, hs]
  · simp [start_experiment, h, hs, store_update]
  · simp [complete_experiment, store_update, h]
  · simp [promote_treatment, store_update, h]

/-- C1 witness: on the concrete running experiment, `start` fails without
mutation while `complete` and `promote` both report success. -/
theorem lifecycle_guards_amended_witness :
    storeRunning "e1" = some expRunning ∧
    expRunning.status ≠ ExperimentStatus.draft ∧
    start_experiment storeRunning 7 "e1" = (false, storeRunning) ∧
    (complete_experiment storeRunning 7 "e1" "v1" "c").1 = true ∧
    (promote_treatment storeRunning "e1").1 = true := by
  have h := lifecycle_guards_amended storeRunning 7 "e1" "v1" "c" expRunning rfl
  exact ⟨rfl, by decide, h.1 (by decide), h.2.2.1.1, h.2.2.2.1⟩

/-- C2 counterexample: `complete_experiment` with a `winner` string equal to
neither tested version (`"v3"` vs control `"v1"` / treatment `"v2"`) reports
success, transitions the status, and stores the foreign winner — refuting the
claimed winner validation. -/
theorem complete_accepts_foreign_winner_cex :
    expRunning.control_version = "v1" ∧ expRunning.treatment_version = "v2" ∧
    (complete_experiment storeRunning 42 "e1" "v3" "c").1 = true ∧
    ((complete_experiment storeRunning 42 "e1" "v3" "c").2 "e1").map Experiment.winner
      = some (some "v3") ∧
    ((complete_experiment storeRunning 42 "e1" "v3" "c").2 "e1").map Experiment.status
      = some ExperimentStatus.completed := by
  refine ⟨rfl, rfl, rfl, by decide, by decide⟩

/-- C2 amended: `complete_experiment` performs no validation of `winner`
against the experiment's versions — for every winner string it reports success
and stores that string verbatim (together with the status transition). -/
theorem complete_winner_unvalidated :
    ∀ (store : ExperimentStore) (now : ℤ)
      (experiment_id winner conclusion : String) (e : Experiment),
      store experiment_id = some e →
      (complete_experiment store now experiment_id winner conclusion).1 = true ∧
      ((complete_experiment store now experiment_id winner conclusion).2 experiment_id).map
          Experiment.winner = some (some winner) ∧
      ((complete_experiment store now experiment_id winner conclusion).2 experiment_id).map
          Experiment.status = some ExperimentStatus.completed := by
  intro store now experiment_id winner conclusion e h
  refine ⟨rfl, ?_, ?_⟩ <;> simp [complete_experiment, store_update, h]

/-- C2 witness: the amended statement at the concrete running experiment with
the foreign winner string `"neither"`. -/
theorem complete_winner_unvalidated_witness :
    (complete_experiment storeRunning 9 "e1" "neither" "c").1 = true ∧
    ((complete_experiment storeRunning 9 "e1" "neither" "c").2 "e1").map
        Experiment.winner = some (some "neither") ∧
    ((complete_experiment storeRunning 9 "e1" "neither" "c").2 "e1").map
        Experiment.status = some ExperimentStatus.completed :=
  complete_winner_unvalidated storeRunning 9 "e1" "neither" "c" expRunning rfl

/-- C10: `record_request` attributes every version string different from
`control_version` — including strings matching neither tested version — to the
treatment arm (incrementing `treatment_requests` by one and leaving
`control_requests` unchanged); only a version exactly equal to
`control_version` increments `control_requests`. -/
theorem record_request_attribution :
    ∀ (store : ExperimentStore) (experiment_id version : String) (e : Experiment),
      store experiment_id = some e →
      ((version ≠ e.control_version →
          (record_request store experiment_id version) experiment_id =
            some { e with treatment_requests := e.treatment_requests + 1 }) ∧
       (version = e.control_version →
          (record_request store experiment_id version) experiment_id =
            some { e with control_requests := e.control_requests + 1 })) := by
  intro store experiment_id version e h
  constructor <;> intro hv <;> simp [record_request, h, hv, store_update]

/-- C10 witness: the version string `"v999"` matches neither `"v1"` (control)
nor `"v2"` (treatment), yet the treatment counter is the one incremented. -/
theorem record_request_attribution_witness :
    ("v999" ≠ expRunning.control_version ∧ "v999" ≠ expRunning.treatment_version) ∧
    (record_request storeRunning "e1" "v999") "e1" =
      some { expRunning with treatment_requests := expRunning.treatment_requests + 1 } :=
  ⟨by decide,
    (record_request_attribution storeRunning "e1" "v999" expRunning rfl).1 (by decide)⟩

/-! ## Comparator theorems -/

/-- C3: the significance flag of a comparison is set exactly when both arms
have at least 30 requests and the success-rate delta exceeds 5 percentage
points in absolute value; in particular a 25-request arm against a 40-request
arm is never significant, whatever the delta. -/
theorem is_significant_iff_sample_floor_and_delta :
    ∀ (control_version treatment_version : String) (confidence_level : ℚ)
      (cm tm : PromptMetrics),
      ((compare_metrics control_version treatment_version confidence_level cm tm).is_significant
          = true ↔
        (30 ≤ cm.total_requests ∧ 30 ≤ tm.total_requests ∧
          5 < |tm.success_rate - cm.success_rate|)) ∧
      (cm.total_requests = 25 → tm.total_requests = 40 →
        (compare_metrics control_version treatment_version confidence_level cm tm).is_significant
          = false) := by
  intro cv tv conf cm tm
  have h5 : (5.0 : ℚ) = 5 := by norm_num
  constructor
  · simp [compare_metrics, h5, ge_iff_le]
  · intro h25 h40
    simp [compare_metrics, h25]

/-- A small aggregated arm: 25 requests, 40% success rate. -/
def pmSmall : PromptMetrics :=
  { prompt_version := "v1", total_requests := 25, successful_requests := 10,
    failed_requests := 15, success_rate := 40, avg_processing_time_ms := 100,
    p50_processing_time_ms := 90, p95_processing_time_ms := 150,
    p99_processing_time_ms := 180, total_input_tokens := 100,
    total_output_tokens := 50, total_cost_usd := 0, avg_cost_per_request := 0,
    avg_field_completeness := 0, avg_fields_extracted := 0,
    first_request := 0, last_request := 10 }

/-- A larger aggregated arm: 40 requests, 90% success rate. -/
def pmLarge : PromptMetrics :=
  { pmSmall with prompt_version := "v2", total_requests := 40,
                 successful_requests := 36, failed_requests := 4,
                 success_rate := 90 }

/-- C3 witness: a control arm with 25 requests against a treatment arm with 40
requests, with a 50-point success-rate delta, is not significant. -/
theorem is_significant_sample_floor_witness :
    pmSmall.total_requests = 25 ∧ pmLarge.total_requests = 40 ∧
    |pmLarge.success_rate - pmSmall.success_rate| = 50 ∧
    (compare_metrics "v1" "v2" (95/100) pmSmall pmLarge).is_significant = false :=
  ⟨rfl, rfl, by norm_num [pmSmall, pmLarge],
    (is_significant_iff_sample_floor_and_delta "v1" "v2" (95/100) pmSmall pmLarge).2 rfl rfl⟩

/-- The recommendation table exactly as the specification words it: four cases
evaluated in order, first match wins.  The guards of the first three cases
failing leaves precisely the fourth (significant, `success_rate_delta ≤ 0`),
which is therefore the trailing branch. -/
def recommendation_from_spec (is_significant : Bool)
    (control_version treatment_version : String)
    (success_rate_delta cost_delta_pct : ℚ) : Recommendation :=
  if is_significant = false then Recommendation.insufficient_data
  else if success_rate_delta > 0 ∧ cost_delta_pct < 20 then
    Recommendation.promote treatment_version success_rate_delta
  else if success_rate_delta > 0 ∧ cost_delta_pct ≥ 20 then
    Recommendation.review treatment_version cost_delta_pct
  else Recommendation.keep_control control_version

/-- C4: the recommendation computed by the comparator coincides, for every
input, with the spec's ordered four-case table applied to the significance
flag, the success-rate delta, and the cost delta percentage. -/
theorem recommendation_first_match_cases :
    ∀ (control_version treatment_version : String) (confidence_level : ℚ)
      (cm tm : PromptMetrics),
      (compare_metrics control_version treatment_version confidence_level cm tm).recommendation
        = recommendation_from_spec
            (compare_metrics control_version treatment_version confidence_level cm tm).is_significant
            control_version treatment_version
            (tm.success_rate - cm.success_rate)
            (if cm.avg_cost_per_request > 0 then
              (tm.avg_cost_per_request - cm.avg_cost_per_request)
                / cm.avg_cost_per_request * 100
             else 0) := by
  intro cv tv conf cm tm
  simp only [compare_metrics, recommendation_from_spec]
  rcases Bool.eq_false_or_eq_true (decide (cm.total_requests ≥ 30
      ∧ tm.total_requests ≥ 30 ∧ |tm.success_rate - cm.success_rate| > 5.0))
    with h | h <;> simp only [h] <;> simp

/-! ## Aggregator theorems -/

theorem filteredItems_eq_nil_of_itemsFor (records : List Item) (v : String)
    (s e : ℤ) (h : itemsFor records v = []) : filteredItems records v s e = [] := by
  simp [filteredItems, h]

theorem successfulItems_eq_nil_of_filteredItems (records : List Item) (v : String)
    (s e : ℤ) (h : filteredItems records v s e = []) :
    successfulItems records v s e = [] := by
  simp [successfulItems, h]

theorem processingTimes_eq_nil_of_successfulItems (records : List Item) (v : String)
    (s e : ℤ) (h : successfulItems records v s e = []) :
    processingTimes records v s e = [] := by
  simp [processingTimes, h]

theorem get_prompt_metrics_eq_some (records : List Item) (v : String) (s e : ℤ)
    (h : filteredItems records v s e ≠ []) :
    get_prompt_metrics records v s e = some (build_prompt_metrics records v s e) := by
  have hitems : (itemsFor records v).isEmpty = false := by
    rcases hI : (itemsFor records v).isEmpty with _ | _
    · rfl
    · exact absurd (filteredItems_eq_nil_of_itemsFor records v s e
        (List.isEmpty_iff.mp hI)) h
  have hfil : (filteredItems records v s e).isEmpty = false := by
    rcases hF : (filteredItems records v s e).isEmpty with _ | _
    · rfl
    · exact absurd (List.isEmpty_iff.mp hF) h
  unfold get_prompt_metrics
  rw [hitems, hfil]
  rfl

theorem processingTimesSorted_of_ne_nil (records : List Item) (v : String)
    (s e : ℤ) (h : processingTimes records v s e ≠ []) :
    processingTimesSorted records v s e =
      List.insertionSort (· ≤ ·) (processingTimes records v s e) := by
  have : (processingTimes records v s e).isEmpty = false := by
    rcases hP : (processingTimes records v s e).isEmpty with _ | _
    · rfl
    · exact absurd (List.isEmpty_iff.mp hP) h
  unfold processingTimesSorted
  rw [this]
  rfl

theorem getD_eq_get_of_lt (l : List ℤ) (n : ℕ) (d : ℤ) (h : n < l.length) :
    l.getD n d = l.get ⟨n, h⟩ := by
  simp [List.getD_eq_getElem?_getD, List.getElem?_eq_getElem h]

/-- The specification's nearest-rank percentile index: for percentile
`p = num/100` over `n` sorted values, `floor(n * p)` clamped to `[0, n-1]`. -/
def nearestRankIdx (num n : ℕ) : ℕ := min (n * num / 100) (n - 1)

/-- C5: on every non-empty successful-latency list, the three reported
percentiles are exactly the elements the spec's clamped nearest-rank index
formula selects from the ascending sort (the clamp is inactive: the code's
unclamped `int(n * p)` index never exceeds `n - 1` for these percentiles). -/
theorem percentiles_nearest_rank_formula :
    ∀ (records : List Item) (prompt_version : String) (start_date end_date : ℤ),
      processingTimes records prompt_version start_date end_date ≠ [] →
      ∃ m, get_prompt_metrics records prompt_version start_date end_date = some m ∧
        m.p50_processing_time_ms =
          (List.insertionSort (· ≤ ·)
            (processingTimes records prompt_version start_date end_date)).getD
            (nearestRankIdx 50
              (processingTimes records prompt_version start_date end_date).length) 0 ∧
        m.p95_processing_time_ms =
          (List.insertionSort (· ≤ ·)
            (processingTimes records prompt_version start_date end_date)).getD
            (nearestRankIdx 95
              (processingTimes records prompt_version start_date end_date).length) 0 ∧
        m.p99_processing_time_ms =
          (List.insertionSort (· ≤ ·)
            (processingTimes records prompt_version start_date end_date)).getD
            (nearestRankIdx 99
              (processingTimes records prompt_version start_date end_date).length) 0 := by
  intro records v s e hpts
  have hfil : filteredItems records v s e ≠ [] := by
    intro hf
    exact hpts (processingTimes_eq_nil_of_successfulItems records v s e
      (successfulItems_eq_nil_of_filteredItems records v s e hf))
  have hS := processingTimesSorted_of_ne_nil records v s e hpts
  have hlen : (processingTimesSorted records v s e).length
      = (processingTimes records v s e).length := by
    rw [hS]
    exact (List.perm_insertionSort _ _).length_eq
  have hn : 0 < (processingTimes records v s e).length := List.length_pos.mpr hpts
  refine ⟨build_prompt_metrics records v s e,
    get_prompt_metrics_eq_some records v s e hfil, ?_, ?_, ?_⟩
  · show (processingTimesSorted records v s e).getD
      ((processingTimesSorted records v s e).length * 50 / 100) 0 = _
    rw [hS, (List.perm_insertionSort _ _).length_eq, nearestRankIdx,
      Nat.min_eq_left (by omega : (processingTimes records v s e).length * 50 / 100
        ≤ (processingTimes records v s e).length - 1)]
  · show (processingTimesSorted records v s e).getD
      ((processingTimesSorted records v s e).length * 95 / 100) 0 = _
    rw [hS, (List.perm_insertionSort _ _).length_eq, nearestRankIdx,
      Nat.min_eq_left (by omega : (processingTimes records v s e).length * 95 / 100
        ≤ (processingTimes records v s e).length - 1)]
  · show (processingTimesSorted records v s e).getD
      ((processingTimesSorted records v s e).length * 99 / 100) 0 = _
    rw [hS, (List.perm_insertionSort _ _).length_eq, nearestRankIdx,
      Nat.min_eq_left (by omega : (processingTimes records v s e).length * 99 / 100
        ≤ (processingTimes records v s e).length - 1)]

/-- Concrete telemetry: three successful latencies (120, 80, 200 ms) and one
failure for version `"v1"`, all inside the window `[0, 100]`. -/
def recsA : List Item :=
  [{ prompt_version := "v1", status := "completed", extracted_at := some 1,
     processing_time_ms := some 120 },
   { prompt_version := "v1", status := "completed", extracted_at := some 2,
     processing_time_ms := some 80 },
   { prompt_version := "v1", status := "completed", extracted_at := some 3,
     processing_time_ms := some 200 },
   { prompt_version := "v1", status := "failed", extracted_at := some 4 }]

/-- C5 witness: the nearest-rank formula instantiated on `recsA`. -/
theorem percentiles_nearest_rank_formula_witness :
    processingTimes recsA "v1" 0 100 ≠ [] ∧
    (∃ m, get_prompt_metrics recsA "v1" 0 100 = some m ∧
      m.p50_processing_time_ms =
        (List.insertionSort (· ≤ ·) (processingTimes recsA "v1" 0 100)).getD
          (nearestRankIdx 50 (processingTimes recsA "v1" 0 100).length) 0 ∧
      m.p95_processing_time_ms =
        (List.insertionSort (· ≤ ·) (processingTimes recsA "v1" 0 100)).getD
          (nearestRankIdx 95 (processingTimes recsA "v1" 0 100).length) 0 ∧
      m.p99_processing_time_ms =
        (List.insertionSort (· ≤ ·) (processingTimes recsA "v1" 0 100)).getD
          (nearestRankIdx 99 (processingTimes recsA "v1" 0 100).length) 0) :=
  ⟨by decide, percentiles_nearest_rank_formula recsA "v1" 0 100 (by decide)⟩

/-- C6: on every non-empty successful-latency list the reported percentiles
are monotone (`p50 ≤ p95 ≤ p99`) and each of them is a value occurring in the
input latency list. -/
theorem percentiles_monotone_and_occur :
    ∀ (records : List Item) (prompt_version : String) (start_date end_date : ℤ),
      processingTimes records prompt_version start_date end_date ≠ [] →
      ∃ m, get_prompt_metrics records prompt_version start_date end_date = some m ∧
        m.p50_processing_time_ms ≤ m.p95_processing_time_ms ∧
        m.p95_processing_time_ms ≤ m.p99_processing_time_ms ∧
        m.p50_processing_time_ms ∈ processingTimes records prompt_version start_date end_date ∧
        m.p95_processing_time_ms ∈ processingTimes records prompt_version start_date end_date ∧
        m.p99_processing_time_ms ∈ processingTimes records prompt_version start_date end_date := by
  intro records v s e hpts
  have hfil : filteredItems records v s e ≠ [] := by
    intro hf
    exact hpts (processingTimes_eq_nil_of_successfulItems records v s e
      (successfulItems_eq_nil_of_filteredItems records v s e hf))
  have hS := processingTimesSorted_of_ne_nil records v s e hpts
  have hperm : List.Perm (List.insertionSort (· ≤ ·) (processingTimes records v s e))
      (processingTimes records v s e) := List.perm_insertionSort _ _
  have hlen : (List.insertionSort (· ≤ ·) (processingTimes records v s e)).length
      = (processingTimes records v s e).length := hperm.length_eq
  have hn : 0 < (processingTimes records v s e).length := List.length_pos.mpr hpts
  have hsorted : List.Sorted (· ≤ ·)
      (List.insertionSort (· ≤ ·) (processingTimes records v s e)) :=
    List.sorted_insertionSort _ _
  have h50 : (List.insertionSort (· ≤ ·) (processingTimes records v s e)).length * 50 / 100
      < (List.insertionSort (· ≤ ·) (processingTimes records v s e)).length := by
    rw [hlen]; omega
  have h95 : (List.insertionSort (· ≤ ·) (processingTimes records v s e)).length * 95 / 100
      < (List.insertionSort (· ≤ ·) (processingTimes records v s e)).length := by
    rw [hlen]; omega
  have h99 : (List.insertionSort (· ≤ ·) (processingTimes records v s e)).length * 99 / 100
      < (List.insertionSort (· ≤ ·) (processingTimes records v s e)).length := by
    rw [hlen]; omega
  have e50 : (build_prompt_metrics records v s e).p50_processing_time_ms
      = (List.insertionSort (· ≤ ·) (processingTimes records v s e)).get
          ⟨(List.insertionSort (· ≤ ·) (processingTimes records v s e)).length * 50 / 100, h50⟩ := by
    show (processingTimesSorted records v s e).getD
      ((processingTimesSorted records v s e).length * 50 / 100) 0 = _
    rw [hS, getD_eq_get_of_lt _ _ _ h50]
  have e95 : (build_prompt_metrics records v s e).p95_processing_time_ms
      = (List.insertionSort (· ≤ ·) (processingTimes records v s e)).get
          ⟨(List.insertionSort (· ≤ ·) (processingTimes records v s e)).length * 95 / 100, h95⟩ := by
    show (processingTimesSorted records v s e).getD
      ((processingTimesSorted records v s e).length * 95 / 100) 0 = _
    rw [hS, getD_eq_get_of_lt _ _ _ h95]
  have e99 : (build_prompt_metrics records v s e).p99_processing_time_ms
      = (List.insertionSort (· ≤ ·) (processingTimes records v s e)).get
          ⟨(List.insertionSort (· ≤ ·) (processingTimes records v s e)).length * 99 / 100, h99⟩ := by
    show (processingTimesSorted records v s e).getD
      ((processingTimesSorted records v s e).length * 99 / 100) 0 = _
    rw [hS, getD_eq_get_of_lt _ _ _ h99]
  refine ⟨build_prompt_metrics records v s e,
    get_prompt_metrics_eq_some records v s e hfil, ?_, ?_, ?_, ?_, ?_⟩
  · rw [e50, e95]
    exact hsorted.rel_get_of_le (by simp [Fin.mk_le_mk]; omega)
  · rw [e95, e99]
    exact hsorted.rel_get_of_le (by simp [Fin.mk_le_mk]; omega)
  · rw [e50]
    exact hperm.mem_iff.mp (List.get_mem _ _ _)
  · rw [e95]
    exact hperm.mem_iff.mp (List.get_mem _ _ _)
  · rw [e99]
    exact hperm.mem_iff.mp (List.get_mem _ _ _)

/-- C6 witness: monotonicity and occurrence instantiated on `recsA`. -/
theorem percentiles_monotone_and_occur_witness :
    processingTimes recsA "v1" 0 100 ≠ [] ∧
    (∃ m, get_prompt_metrics recsA "v1" 0 100 = some m ∧
      m.p50_processing_time_ms ≤ m.p95_processing_time_ms ∧
      m.p95_processing_time_ms ≤ m.p99_processing_time_ms ∧
      m.p50_processing_time_ms ∈ processingTimes recsA "v1" 0 100 ∧
      m.p95_processing_time_ms ∈ processingTimes recsA "v1" 0 100 ∧
      m.p99_processing_time_ms ∈ processingTimes recsA "v1" 0 100) :=
  ⟨by decide, percentiles_monotone_and_occur recsA "v1" 0 100 (by decide)⟩

theorem pyRound_zero (ndigits : ℕ) : pyRound 0 ndigits = 0 := by
  norm_num [pyRound, roundHalfEven]

/-- C7: the aggregator returns `None` (surfaced as `NotFound` by its callers)
exactly when zero records for the version fall in the window after filtering;
when in-window records exist but none has status `"completed"`, it instead
returns a metrics struct whose `success_rate` is exactly `0`. -/
theorem metrics_none_iff_no_records_in_window :
    ∀ (records : List Item) (prompt_version : String) (start_date end_date : ℤ),
      (get_prompt_metrics records prompt_version start_date end_date = none ↔
        filteredItems records prompt_version start_date end_date = []) ∧
      (filteredItems records prompt_version start_date end_date ≠ [] →
        successfulItems records prompt_version start_date end_date = [] →
        ∃ m, get_prompt_metrics records prompt_version start_date end_date = some m ∧
          m.success_rate = 0) := by
  intro records v s e
  constructor
  · constructor
    · intro hnone
      by_contra hf
      rw [get_prompt_metrics_eq_some records v s e hf] at hnone
      exact Option.some_ne_none _ hnone
    · intro hf
      unfold get_prompt_metrics
      split_ifs with h1 h2
      · rfl
      · rfl
      · rw [List.isEmpty_iff] at h2
        exact absurd hf h2
  · intro hf hsucc
    refine ⟨build_prompt_metrics records v s e,
      get_prompt_metrics_eq_some records v s e hf, ?_⟩
    show pyRound (((successfulItems records v s e).length : ℚ)
      / ((filteredItems records v s e).length : ℚ) * 100) 2 = 0
    rw [hsucc]
    simpa using pyRound_zero 2

/-- Concrete telemetry: a single in-window record for `"v2"`, with status
`"failed"` — data exists but nothing succeeded. -/
def recsFailed : List Item :=
  [{ prompt_version := "v2", status := "failed", extracted_at := some 5 }]

/-- C7 witness: on `recsFailed` the aggregator returns a struct with
`success_rate = 0` rather than `None`. -/
theorem metrics_none_iff_no_records_in_window_witness :
    filteredItems recsFailed "v2" 0 100 ≠ [] ∧
    successfulItems recsFailed "v2" 0 100 = [] ∧
    (∃ m, get_prompt_metrics recsFailed "v2" 0 100 = some m ∧
      m.success_rate = 0) :=
  ⟨by decide, by decide,
    (metrics_none_iff_no_records_in_window recsFailed "v2" 0 100).2
      (by decide) (by decide)⟩

/-! ## Equal-version comparison (C8) -/

/-- Concrete telemetry for version `"v1"`: one success, one failure, both
inside the window `[0, 100]`. -/
def recsC8 : List Item :=
  [{ prompt_version := "v1", status := "completed", extracted_at := some 5,
     processing_time_ms := some 100,
     token_usage := some { input_tokens := 10, output_tokens := 20 } },
   { prompt_version := "v1", status := "failed", extracted_at := some 6 }]

/-- C8 counterexample: invoking the comparison service with equal control and
treatment version strings is *not* rejected — `compare_prompts` fetches the
version's metrics and returns a full comparison result built from them
(`control_n = 2`, the number of stored records), refuting the claim that the
compare operation never fetches metrics when the versions are equal. -/
theorem compare_prompts_equal_versions_cex :
    (compare_prompts recsC8 "v1" "v1" (95 / 100) 0 100).map ExperimentResult.control_n
      = some 2 ∧
    (compare_prompts recsC8 "v1" "v1" (95 / 100) 0 100).map ExperimentResult.treatment_n
      = some 2 := by
  constructor <;> rfl

/-- C8 amended: the rejection of equal versions lives only in the lambda
handler — which returns a 400 error before the service (and hence any
telemetry lookup) runs, uniformly in the stored records — while the service
function `compare_prompts` itself performs no equality check: with equal
versions it proceeds to fetch the version's metrics and compare them with
themselves. -/
theorem equal_versions_rejected_in_handler_only :
    ∀ (records : List Item) (v : String) (confidence_level : ℚ)
      (start_date end_date : ℤ), v ≠ "" →
      metrics_compare_handler records (some v) (some v) confidence_level
          start_date end_date
        = HandlerResponse.error 400 "Control and treatment versions must be different" ∧
      compare_prompts records v v confidence_level start_date end_date
        = (get_prompt_metrics records v start_date end_date).map
            (fun m => compare_metrics v v confidence_level m m) := by
  intro records v conf s e hv
  constructor
  · simp [metrics_compare_handler, hv]
  · cases h : get_prompt_metrics records v s e <;> simp [compare_prompts, h]

/-- C8 witness: the amended statement at `recsC8` and version `"v1"`. -/
theorem equal_versions_rejected_in_handler_only_witness :
    metrics_compare_handler recsC8 (some "v1") (some "v1") (95 / 100) 0 100
      = HandlerResponse.error 400 "Control and treatment versions must be different" ∧
    compare_prompts recsC8 "v1" "v1" (95 / 100) 0 100
      = (get_prompt_metrics recsC8 "v1" 0 100).map
          (fun m => compare_metrics "v1" "v1" (95 / 100) m m) :=
  equal_versions_rejected_in_handler_only recsC8 "v1" (95 / 100) 0 100 (by decide)
